import Mathlib

/-!
Shallow embedding of the checkout / cart / order-status core of the
ecommerce-api backend (app/services/cart_service.py,
app/services/order_service.py, app/models/{cart,order,product,address}.py,
app/core/enums.py, app/core/errors.py).

Modelling conventions:
* UUID primary keys are modelled as natural numbers; the session-side id
  generator is an explicit counter `nextId` carried in the database state.
* SQL tables are lists of rows; a primary-key lookup (session.get) is a
  first-match scan, and a SELECT ... WHERE is a find? or filter over the
  list.  Uniqueness of primary keys, which the database engine enforces,
  appears as explicit Nodup / freshness hypotheses where a proof needs it.
* decimal/float money amounts (Product.price, CartItem.unit_price,
  OrderItem.unit_price, Order.total_amount) are modelled as rationals, and
  Python int columns (quantity, stock) as Int.
* Each service method becomes a pure function from the database state to a
  pair of an Except result and the new database state.  A raised domain
  error is the .error case; the state returned with it is the state of the
  SQLAlchemy session at the moment of the raise (mutations flushed before
  the raise are visible, as they are in the session), which makes
  atomicity properties non-trivial statements.
-/

/-- Row of the products table (app/models/product.py). -/
structure Product where
  id : Nat
  price : Rat
  stock : Int
  is_available : Bool
  deriving Repr, DecidableEq

/-- Row of the carts table (app/models/cart.py). -/
structure Cart where
  id : Nat
  user_id : Nat
  deriving Repr, DecidableEq

/-- Row of the cart_items table (app/models/cart.py).  unit_price is the
price snapshot taken when the line was added. -/
structure CartItem where
  id : Nat
  cart_id : Nat
  product_id : Nat
  quantity : Int
  unit_price : Rat
  deriving Repr, DecidableEq

/-- Order status enumeration (app/core/enums.py).  Modelled from the spec:
the source enum lists pending, processing, shipped, delivered and canceled;
the members returned and refunded are referenced by
OrderService._ALLOWED_TRANSITIONS and listed in the specification's
seven-state table but their declarations are missing from
src/app/core/enums.py, so they are modelled here from the spec. -/
inductive OrderStatus where
  | pending
  | processing
  | shipped
  | delivered
  | canceled
  | returned
  | refunded
  deriving Repr, DecidableEq, Fintype

/-- Row of the orders table (app/models/order.py). -/
structure Order where
  id : Nat
  user_id : Nat
  number : String
  status : OrderStatus
  shipping_address_id : Option Nat
  billing_address_id : Option Nat
  total_amount : Rat
  deriving Repr, DecidableEq

/-- Row of the order_items table (app/models/order.py). -/
structure OrderItem where
  id : Nat
  order_id : Nat
  product_id : Nat
  quantity : Int
  unit_price : Rat
  deriving Repr, DecidableEq

/-- Row of the addresses table (app/models/address.py); only the fields the
core consumes. -/
structure Address where
  id : Nat
  user_id : Nat
  deriving Repr, DecidableEq

/-- Domain errors (app/core/errors.py).  cartNotFound, addressNotFound,
invalidOrderStatusTransition and notFound are raised or imported by the
services but their class declarations are missing from
src/app/core/errors.py; they are modelled from the spec as distinct error
values named after the classes the code raises. -/
inductive EcomError where
  | emptyCart
  | insufficientStock
  | cartItemNotFound
  | cartNotFound
  | orderNotFound
  | addressNotFound
  | invalidOrderStatusTransition
  | notFound
  deriving Repr, DecidableEq

/-- The database state visible to the core services. -/
structure DB where
  products : List Product
  carts : List Cart
  cartItems : List CartItem
  orders : List Order
  orderItems : List OrderItem
  addresses : List Address
  nextId : Nat
  deriving Repr, DecidableEq

/-- Primary-key lookup in the products table (session.get(Product, id),
also the products_by_id dict lookup in checkout). -/
def findProduct (db : DB) (pid : Nat) : Option Product :=
  db.products.find? (fun p => p.id == pid)

/-- Primary-key lookup in the cart_items table (session.get(CartItem, id)). -/
def findCartItem (db : DB) (iid : Nat) : Option CartItem :=
  db.cartItems.find? (fun i => i.id == iid)

/-- Primary-key lookup in the addresses table (session.get(Address, id)). -/
def findAddress (db : DB) (aid : Nat) : Option Address :=
  db.addresses.find? (fun a => a.id == aid)

/-- SELECT CartItem WHERE cart_id = cid: the items relationship of a cart. -/
def cartItemsOf (db : DB) (cid : Nat) : List CartItem :=
  db.cartItems.filter (fun i => i.cart_id == cid)

namespace CartService

/-- CartService.get_user_cart: SELECT Cart WHERE user_id = user_id, first
row or none. -/
def get_user_cart (user_id : Nat) (db : DB) : Option Cart :=
  db.carts.find? (fun c => c.user_id == user_id)

/-- CartService.get_or_create_user_cart: return the existing cart, or
insert (and flush) a fresh empty cart for the user. -/
def get_or_create_user_cart (user_id : Nat) (db : DB) : Cart × DB :=
  match get_user_cart user_id db with
  | some cart => (cart, db)
  | none =>
    let cart : Cart := { id := db.nextId, user_id := user_id }
    (cart, { db with carts := db.carts ++ [cart], nextId := db.nextId + 1 })

/-- CartService.clear_user_cart: delete the cart, cascading its items; no
operation if the user has no cart. -/
def clear_user_cart (user_id : Nat) (db : DB) : DB :=
  match get_user_cart user_id db with
  | none => db
  | some cart =>
    { db with carts := db.carts.filter (fun c => !(c.id == cart.id)),
              cartItems := db.cartItems.filter (fun i => !(i.cart_id == cart.id)) }

/-- CartService.add_item_to_user_cart.  data.product_id and data.quantity
are passed directly; ProductService.get raises NotFoundError when the
product is absent.  An existing line for the same product is merged
(quantity becomes existing + requested, unit_price kept); otherwise a new
line snapshots the current product price. -/
def add_item_to_user_cart (user_id product_id : Nat) (quantity : Int)
    (db : DB) : Except EcomError Cart × DB :=
  let cartAndDb := get_or_create_user_cart user_id db
  let cart := cartAndDb.1
  let db1 := cartAndDb.2
  match findProduct db1 product_id with
  | none => (.error .notFound, db1)
  | some product =>
    let item? := db1.cartItems.find?
      (fun i => i.cart_id == cart.id && i.product_id == product.id)
    let current_qty : Int := match item? with | some i => i.quantity | none => 0
    let new_qty := current_qty + quantity
    if product.stock < new_qty then
      (.error .insufficientStock, db1)
    else
      match item? with
      | some i =>
        let merged := db1.cartItems.map
          (fun j => if j.id == i.id then { j with quantity := new_qty } else j)
        (.ok cart, { db1 with cartItems := merged })
      | none =>
        let line : CartItem :=
          { id := db1.nextId, cart_id := cart.id, product_id := product.id,
            quantity := quantity, unit_price := product.price }
        (.ok cart,
         { db1 with cartItems := db1.cartItems ++ [line], nextId := db1.nextId + 1 })

/-- CartService.update_item_to_user_cart.  Note the source raises
CartNotFoundError (not CartItemNotFoundError) when the line is absent or
foreign, and calls get_or_create_user_cart first, so a caller with no cart
gets one created before the failure. -/
def update_item_to_user_cart (user_id item_id : Nat) (quantity : Option Int)
    (db : DB) : Except EcomError Cart × DB :=
  let cartAndDb := get_or_create_user_cart user_id db
  let cart := cartAndDb.1
  let db1 := cartAndDb.2
  match findCartItem db1 item_id with
  | none => (.error .cartNotFound, db1)
  | some item =>
    if !(item.cart_id == cart.id) then
      (.error .cartNotFound, db1)
    else
      match quantity with
      | none => (.ok cart, db1)
      | some q =>
        if q ≤ 0 then
          (.ok cart,
           { db1 with cartItems := db1.cartItems.filter (fun i => !(i.id == item_id)) })
        else
          match findProduct db1 item.product_id with
          | none => (.error .notFound, db1)
          | some product =>
            if product.stock < q then
              (.error .insufficientStock, db1)
            else
              let updated := db1.cartItems.map
                (fun i => if i.id == item_id then { i with quantity := q } else i)
              (.ok cart, { db1 with cartItems := updated })

/-- CartService.remove_item_from_user_cart.  Note the source returns
silently (no error) when the user has no cart at all; with a cart it raises
CartItemNotFoundError for an absent or foreign line. -/
def remove_item_from_user_cart (user_id item_id : Nat)
    (db : DB) : Except EcomError Unit × DB :=
  match get_user_cart user_id db with
  | none => (.ok (), db)
  | some cart =>
    match findCartItem db item_id with
    | none => (.error .cartItemNotFound, db)
    | some item =>
      if !(item.cart_id == cart.id) then
        (.error .cartItemNotFound, db)
      else
        (.ok (),
         { db with cartItems := db.cartItems.filter (fun i => !(i.id == item_id)) })

end CartService

/-- The order-number helper _order_number: ORD- followed by the first eight
characters of the printed identifier, uppercased. -/
def orderNumber (order_id : Nat) : String :=
  "ORD-" ++ ((toString order_id).take 8).toUpper

namespace OrderService

/-- OrderService._ALLOWED_TRANSITIONS (source -> permitted next statuses);
canceled and refunded are terminal. -/
def allowedTransitions : OrderStatus → List OrderStatus
  | .pending => [.processing, .canceled]
  | .processing => [.shipped, .canceled]
  | .shipped => [.delivered, .returned]
  | .delivered => [.returned, .refunded]
  | .returned => [.refunded]
  | .canceled => []
  | .refunded => []

/-- The stock validation of checkout step 3 for one cart item: the line
passes when the locked product row exists and the quantity does not exceed
its stock (the source raises when `not p or it.quantity > p.stock`). -/
def stockOk (db : DB) (it : CartItem) : Bool :=
  match findProduct db it.product_id with
  | none => false
  | some p => decide (it.quantity ≤ p.stock)

/-- The address validation of checkout step 4 for one optional address
reference: passes when no reference was supplied, or the referenced row
exists and belongs to the user (the source raises AddressNotFoundError when
`addr_id and (not addr or addr.user_id != user_id)`). -/
def addressOk (db : DB) (user_id : Nat) : Option Nat → Bool
  | none => true
  | some aid =>
    match findAddress db aid with
    | none => false
    | some a => a.user_id == user_id

/-- The per-item loop of checkout step 6, in accumulator style: for each
cart item, decrement the matching product row's stock by the item's
quantity, append an OrderItem copying product reference, quantity and the
snapshotted unit_price, and add quantity * unit_price to the running
total.  Fresh OrderItem identifiers are drawn from the counter. -/
def processItems (order_id : Nat) :
    List CartItem → List Product → List OrderItem → Rat → Nat →
    List Product × List OrderItem × Rat × Nat
  | [], prods, ois, total, nid => (prods, ois, total, nid)
  | it :: rest, prods, ois, total, nid =>
    let prods1 := prods.map
      (fun p => if p.id == it.product_id then { p with stock := p.stock - it.quantity } else p)
    let oi : OrderItem :=
      { id := nid, order_id := order_id, product_id := it.product_id,
        quantity := it.quantity, unit_price := it.unit_price }
    processItems order_id rest prods1 (ois ++ [oi])
      (total + (it.quantity : Rat) * it.unit_price) (nid + 1)

/-- OrderService.checkout.  Steps: load cart with items (EmptyCartError if
absent or empty); lock the touched product rows and validate stock
(InsufficientStockError); validate optional address ownership
(AddressNotFoundError); create the order, assign its number from its
identifier, decrement stock, copy the cart lines into order items,
accumulate the total; delete the cart with its items. -/
def checkout (user_id : Nat) (shipping_address_id billing_address_id : Option Nat)
    (db : DB) : Except EcomError Order × DB :=
  match CartService.get_user_cart user_id db with
  | none => (.error .emptyCart, db)
  | some cart =>
    let items := cartItemsOf db cart.id
    if items.isEmpty then
      (.error .emptyCart, db)
    else if !(items.all (stockOk db)) then
      (.error .insufficientStock, db)
    else if !(addressOk db user_id shipping_address_id) then
      (.error .addressNotFound, db)
    else if !(addressOk db user_id billing_address_id) then
      (.error .addressNotFound, db)
    else
      let oid := db.nextId
      let r := processItems oid items db.products [] 0 (oid + 1)
      let order : Order :=
        { id := oid, user_id := user_id, number := orderNumber oid,
          status := .pending, shipping_address_id := shipping_address_id,
          billing_address_id := billing_address_id, total_amount := r.2.2.1 }
      (.ok order,
       { products := r.1,
         carts := db.carts.filter (fun c => !(c.id == cart.id)),
         cartItems := db.cartItems.filter (fun i => !(i.cart_id == cart.id)),
         orders := db.orders ++ [order],
         orderItems := db.orderItems ++ r.2.1,
         addresses := db.addresses,
         nextId := r.2.2.2 })

/-- OrderService.get_user_order: SELECT Order WHERE id = order_id AND
user_id = user_id, first row; OrderNotFoundError when none matches. -/
def get_user_order (user_id order_id : Nat) (db : DB) : Except EcomError Order :=
  match db.orders.find? (fun o => o.id == order_id && o.user_id == user_id) with
  | some o => .ok o
  | none => .error .orderNotFound

/-- OrderService.update_order_status: OrderNotFoundError when the order is
absent; setting the current status again is an idempotent no-op; a target
outside the allowed set raises InvalidOrderStatusTransitionError; otherwise
the new status is persisted. -/
def update_order_status (order_id : Nat) (new_status : OrderStatus)
    (db : DB) : Except EcomError Order × DB :=
  match db.orders.find? (fun o => o.id == order_id) with
  | none => (.error .orderNotFound, db)
  | some order =>
    if new_status == order.status then
      (.ok order, db)
    else if !((allowedTransitions order.status).contains new_status) then
      (.error .invalidOrderStatusTransition, db)
    else
      let updated := db.orders.map
        (fun o => if o.id == order_id then { o with status := new_status } else o)
      (.ok { order with status := new_status }, { db with orders := updated })

end OrderService

/-- ProductService.update restricted to the price column (the catalog
mutation the price-snapshot property quantifies over): set the price of the
product row, touching no other table. -/
def updateProductPrice (product_id : Nat) (new_price : Rat) (db : DB) : DB :=
  let updated := db.products.map
    (fun p => if p.id == product_id then { p with price := new_price } else p)
  { db with products := updated }

/-- Total quantity that the cart lines `items` request of product `pid`
(with at most one line per product this is that line's quantity, else 0). -/
def cartQty : List CartItem → Nat → Int
  | [], _ => 0
  | it :: rest, pid => (if it.product_id = pid then it.quantity else 0) + cartQty rest pid

/-- Order total as the specification states it: the sum over cart items of
quantity * unit_price. -/
def cartTotal (items : List CartItem) : Rat :=
  (items.map (fun it => (it.quantity : Rat) * it.unit_price)).sum

/-- The order lines produced by the checkout loop for the given cart lines,
with identifiers drawn consecutively from `nid`: each copies the product
reference, quantity and snapshotted unit price of its cart line. -/
def mkOrderItems (order_id : Nat) : Nat → List CartItem → List OrderItem
  | _, [] => []
  | nid, it :: rest =>
    { id := nid, order_id := order_id, product_id := it.product_id,
      quantity := it.quantity, unit_price := it.unit_price }
      :: mkOrderItems order_id (nid + 1) rest

/-- Run a sequence of checkout requests (user, shipping, billing), keeping
only the resulting database states. -/
def runCheckouts : List (Nat × Option Nat × Option Nat) → DB → DB
  | [], db => db
  | r :: rest, db => runCheckouts rest (OrderService.checkout r.1 r.2.1 r.2.2 db).2

/-- Every product row has non-negative stock. -/
def stocksNonneg (db : DB) : Prop := ∀ p ∈ db.products, 0 ≤ p.stock

/-- Product primary keys are unique (database PK constraint). -/
def productIdsNodup (db : DB) : Prop :=
  (db.products.map (fun p => p.id)).Nodup

/-- The UniqueConstraint(cart_id, product_id) of the cart_items table: two
distinct rows of the same cart never reference the same product. -/
def cartLinesSeparated (db : DB) : Prop :=
  db.cartItems.Pairwise (fun a b => a.cart_id = b.cart_id → a.product_id ≠ b.product_id)

/-- Fixture: the specification scenario product (price 10.0, stock 3). -/
def prodW : Product := { id := 5, price := 10, stock := 3, is_available := true }

/-- Fixture: user 1's cart. -/
def cartW : Cart := { id := 10, user_id := 1 }

/-- Fixture: one cart line of quantity 2 at snapshotted unit price 10.0. -/
def itemW : CartItem :=
  { id := 100, cart_id := 10, product_id := 5, quantity := 2, unit_price := 10 }

/-- Fixture: database for the specification checkout scenario. -/
def dbW : DB :=
  { products := [prodW], carts := [cartW], cartItems := [itemW],
    orders := [], orderItems := [], addresses := [], nextId := 200 }

/-- Fixture: database where the cart line quantity 3 exceeds stock 2. -/
def dbIS : DB :=
  { products := [{ id := 5, price := 10, stock := 2, is_available := true }],
    carts := [cartW],
    cartItems := [{ id := 100, cart_id := 10, product_id := 5, quantity := 3,
                    unit_price := 10 }],
    orders := [], orderItems := [], addresses := [], nextId := 200 }

/-- Fixture: a pending order of user 1 and a pending order of user 2. -/
def orderW : Order :=
  { id := 7, user_id := 1, number := "ORD-7", status := .pending,
    shipping_address_id := none, billing_address_id := none, total_amount := 20 }

/-- Fixture: a second order, owned by user 2. -/
def orderX : Order :=
  { id := 8, user_id := 2, number := "ORD-8", status := .pending,
    shipping_address_id := none, billing_address_id := none, total_amount := 5 }

/-- Fixture: database holding the two order fixtures. -/
def dbORD : DB :=
  { products := [], carts := [], cartItems := [], orders := [orderW, orderX],
    orderItems := [], addresses := [], nextId := 9 }

/-- The orders table after persisting status `ns` on order `oid` (the
UPDATE that update_order_status flushes). -/
def ordersWithStatus (db : DB) (oid : Nat) (ns : OrderStatus) : List Order :=
  db.orders.map (fun x => if x.id == oid then { x with status := ns } else x)


theorem find_id_eq_of_nodup (l : List Product) (p : Product) (hmem : p ∈ l)
    (hnd : (l.map (fun q => q.id)).Nodup) :
    l.find? (fun q => q.id == p.id) = some p := by
  induction l with
  | nil => cases hmem
  | cons a t ih =>
    rcases List.nodup_cons.mp hnd with ⟨hni, hndt⟩
    rcases List.mem_cons.mp hmem with rfl | ht
    · exact List.find?_cons_of_pos t (by simp)
    · have hne : ¬ (a.id == p.id) = true := by
        simp only [beq_iff_eq]
        intro he
        exact hni (by simpa [he] using List.mem_map_of_mem (fun q => q.id) ht)
      rw [List.find?_cons_of_neg t hne]
      exact ih ht hndt

theorem findProduct_mem (db : DB) (pid : Nat) (p : Product)
    (h : findProduct db pid = some p) : p.id = pid ∧ p ∈ db.products := by
  unfold findProduct at h
  exact ⟨by simpa using List.find?_some h, List.mem_of_find?_eq_some h⟩

theorem findProduct_self (db : DB) (p : Product) (hmem : p ∈ db.products)
    (hnd : productIdsNodup db) : findProduct db p.id = some p :=
  find_id_eq_of_nodup db.products p hmem hnd

theorem get_or_create_tables (user_id : Nat) (db : DB) :
    (CartService.get_or_create_user_cart user_id db).2.products = db.products ∧
    (CartService.get_or_create_user_cart user_id db).2.cartItems = db.cartItems ∧
    (CartService.get_or_create_user_cart user_id db).2.orders = db.orders ∧
    (CartService.get_or_create_user_cart user_id db).2.orderItems = db.orderItems ∧
    (CartService.get_or_create_user_cart user_id db).2.addresses = db.addresses := by
  unfold CartService.get_or_create_user_cart
  cases h : CartService.get_user_cart user_id db <;> simp

theorem cartQty_nil (pid : Nat) : cartQty [] pid = 0 := rfl

theorem cartQty_cons (it : CartItem) (rest : List CartItem) (pid : Nat) :
    cartQty (it :: rest) pid =
      (if it.product_id = pid then it.quantity else 0) + cartQty rest pid := rfl

theorem cartQty_eq_zero (items : List CartItem) (pid : Nat)
    (h : ∀ it ∈ items, it.product_id ≠ pid) : cartQty items pid = 0 := by
  induction items with
  | nil => rfl
  | cons it rest ih =>
    rw [cartQty_cons, if_neg (h it (List.mem_cons_self it rest)), zero_add]
    exact ih (fun x hx => h x (List.mem_cons_of_mem it hx))

theorem map_stock_compose (it : CartItem) (rest : List CartItem) (prods : List Product) :
    (prods.map (fun p =>
        if p.id == it.product_id then { p with stock := p.stock - it.quantity } else p)).map
      (fun p => { p with stock := p.stock - cartQty rest p.id })
    = prods.map (fun p => { p with stock := p.stock - cartQty (it :: rest) p.id }) := by
  rw [List.map_map]
  apply List.map_congr_left
  intro p _
  rcases p with ⟨pid, pp, ps, pa⟩
  by_cases h : pid = it.product_id
  · simp [Function.comp, h, cartQty_cons, sub_sub]
  · have h2 : ¬ it.product_id = pid := fun he => h he.symm
    simp [Function.comp, h, h2, cartQty_cons]

theorem processItems_eq (order_id : Nat) (items : List CartItem) :
    ∀ (prods : List Product) (ois : List OrderItem) (total : Rat) (nid : Nat),
    OrderService.processItems order_id items prods ois total nid =
      (prods.map (fun p => { p with stock := p.stock - cartQty items p.id }),
       ois ++ mkOrderItems order_id nid items,
       total + cartTotal items,
       nid + items.length) := by
  induction items with
  | nil =>
    intro prods ois total nid
    simp [OrderService.processItems, cartQty_nil, mkOrderItems, cartTotal]
  | cons it rest ih =>
    intro prods ois total nid
    rw [OrderService.processItems, ih, ← map_stock_compose]
    simp [mkOrderItems, cartTotal, List.length_cons]
    constructor
    · ring
    · omega

theorem checkout_ok_eq (db : DB) (user_id : Nat) (sid bid : Option Nat) (cart : Cart)
    (hc : CartService.get_user_cart user_id db = some cart)
    (hne : cartItemsOf db cart.id ≠ [])
    (hstock : (cartItemsOf db cart.id).all (OrderService.stockOk db) = true)
    (hship : OrderService.addressOk db user_id sid = true)
    (hbill : OrderService.addressOk db user_id bid = true) :
    OrderService.checkout user_id sid bid db =
      (.ok { id := db.nextId, user_id := user_id,
             number := orderNumber db.nextId, status := .pending,
             shipping_address_id := sid, billing_address_id := bid,
             total_amount := cartTotal (cartItemsOf db cart.id) },
       { products := db.products.map
           (fun p => { p with stock := p.stock - cartQty (cartItemsOf db cart.id) p.id }),
         carts := db.carts.filter (fun c => !(c.id == cart.id)),
         cartItems := db.cartItems.filter (fun i => !(i.cart_id == cart.id)),
         orders := db.orders ++
           [{ id := db.nextId, user_id := user_id,
              number := orderNumber db.nextId, status := .pending,
              shipping_address_id := sid, billing_address_id := bid,
              total_amount := cartTotal (cartItemsOf db cart.id) }],
         orderItems := db.orderItems ++
           mkOrderItems db.nextId (db.nextId + 1) (cartItemsOf db cart.id),
         addresses := db.addresses,
         nextId := db.nextId + 1 + (cartItemsOf db cart.id).length }) := by
  have hemp : (cartItemsOf db cart.id).isEmpty = false := by
    simp [List.isEmpty_iff, hne]
  unfold OrderService.checkout
  rw [hc]
  simp only [hemp, hstock, hship, hbill, Bool.not_true, Bool.false_eq_true, if_false,
    processItems_eq]
  simp

theorem checkout_error_eq (db db2 : DB) (user_id : Nat) (sid bid : Option Nat)
    (e : EcomError)
    (h : OrderService.checkout user_id sid bid db = (.error e, db2)) : db2 = db := by
  unfold OrderService.checkout at h
  split at h
  · cases h; rfl
  · simp only [] at h
    split_ifs at h with h1 h2 h3 h4
    · cases h; rfl
    · cases h; rfl
    · cases h; rfl
    · cases h; rfl
    · simp at h

theorem checkout_error_result (db : DB) (user_id : Nat) (sid bid : Option Nat)
    (e : EcomError)
    (h : (OrderService.checkout user_id sid bid db).1 = .error e) :
    OrderService.checkout user_id sid bid db = (.error e, db) := by
  have h2 : OrderService.checkout user_id sid bid db =
      (.error e, (OrderService.checkout user_id sid bid db).2) := by
    rw [← h]
  rw [h2, checkout_error_eq db _ user_id sid bid e h2]

/-- C2: if checkout raises a domain error (in particular EmptyCart or
InsufficientStock), the database afterward is exactly the database before
the call: no Order row, no OrderItem rows, no stock decrement, and the
cart (if any) together with its items is unchanged. -/
theorem C2_checkout_atomic_on_error (db db2 : DB) (user_id : Nat)
    (sid bid : Option Nat) (e : EcomError)
    (h : OrderService.checkout user_id sid bid db = (.error e, db2)) :
    db2 = db ∧ db2.orders = db.orders ∧ db2.orderItems = db.orderItems ∧
    db2.products = db.products ∧ db2.carts = db.carts ∧
    db2.cartItems = db.cartItems := by
  have he := checkout_error_eq db db2 user_id sid bid e h
  subst he
  exact ⟨rfl, rfl, rfl, rfl, rfl, rfl⟩

/-- Witness for C2: checking out the fixture whose cart line quantity 3
exceeds stock 2 raises InsufficientStock and leaves the database as it
was. -/
theorem C2_checkout_atomic_witness :
    (OrderService.checkout 1 none none dbIS).2 = dbIS :=
  (C2_checkout_atomic_on_error dbIS dbIS 1 none none .insufficientStock rfl).1

/-- C3: the order status machine over the seven states behaves exactly as
the transition table: a missing order raises OrderNotFound with the state
unchanged; setting the current status again is a no-op returning the order
unchanged; a (source, target) pair outside the table raises
InvalidOrderStatusTransition and changes nothing; an allowed pair succeeds
and persists the new status; and the allowed relation is exactly the nine
pairs the specification lists. -/
theorem C3_status_machine (db : DB) (oid : Nat) (ns : OrderStatus) :
    (db.orders.find? (fun o => o.id == oid) = none →
      OrderService.update_order_status oid ns db = (.error .orderNotFound, db)) ∧
    (∀ o, db.orders.find? (fun o => o.id == oid) = some o →
      (ns = o.status →
        OrderService.update_order_status oid ns db = (.ok o, db)) ∧
      (ns ≠ o.status → ns ∉ OrderService.allowedTransitions o.status →
        OrderService.update_order_status oid ns db =
          (.error .invalidOrderStatusTransition, db)) ∧
      (ns ≠ o.status → ns ∈ OrderService.allowedTransitions o.status →
        OrderService.update_order_status oid ns db =
          (.ok { o with status := ns },
           { db with orders := ordersWithStatus db oid ns }))) ∧
    (∀ s t : OrderStatus, t ∈ OrderService.allowedTransitions s ↔
      (s = .pending ∧ t = .processing) ∨ (s = .pending ∧ t = .canceled) ∨
      (s = .processing ∧ t = .shipped) ∨ (s = .processing ∧ t = .canceled) ∨
      (s = .shipped ∧ t = .delivered) ∨ (s = .shipped ∧ t = .returned) ∨
      (s = .delivered ∧ t = .returned) ∨ (s = .delivered ∧ t = .refunded) ∨
      (s = .returned ∧ t = .refunded)) := by
  refine ⟨?_, ?_, ?_⟩
  · intro hn
    simp [OrderService.update_order_status, hn]
  · intro o ho
    refine ⟨?_, ?_, ?_⟩
    · intro he
      simp [OrderService.update_order_status, ho, he]
    · intro hne hnm
      have hb : (ns == o.status) = false := by
        simp [beq_eq_false_iff_ne, hne]
      simp [OrderService.update_order_status, ho, hb, List.elem_iff, hnm]
    · intro hne hm
      have hb : (ns == o.status) = false := by
        simp [beq_eq_false_iff_ne, hne]
      simp [OrderService.update_order_status, ho, hb, List.elem_iff, hm,
        ordersWithStatus, beq_iff_eq]
  · decide

/-- Witness for C3: on the fixture order 7 in pending, the allowed
transition to processing succeeds and persists, the forbidden transition to
delivered raises InvalidOrderStatusTransition with the state unchanged,
re-setting pending is a no-op, and a missing order id raises
OrderNotFound. -/
theorem C3_status_machine_witness :
    OrderService.update_order_status 7 .processing dbORD =
      (.ok { orderW with status := .processing },
       { dbORD with orders := [{ orderW with status := .processing }, orderX] }) ∧
    OrderService.update_order_status 7 .delivered dbORD =
      (.error .invalidOrderStatusTransition, dbORD) ∧
    OrderService.update_order_status 7 .pending dbORD = (.ok orderW, dbORD) ∧
    OrderService.update_order_status 99 .processing dbORD =
      (.error .orderNotFound, dbORD) := by
  refine ⟨?_, ?_, ?_, ?_⟩
  · exact ((C3_status_machine dbORD 7 .processing).2.1 orderW rfl).2.2
      (by decide) (by decide)
  · exact ((C3_status_machine dbORD 7 .delivered).2.1 orderW rfl).2.1
      (by decide) (by decide)
  · exact ((C3_status_machine dbORD 7 .pending).2.1 orderW rfl).1 (by decide)
  · exact (C3_status_machine dbORD 99 .processing).1 rfl

theorem mkOrderItems_proj (order_id : Nat) :
    ∀ (nid : Nat) (items : List CartItem),
    (mkOrderItems order_id nid items).map
        (fun x => (x.order_id, x.product_id, x.quantity, x.unit_price))
      = items.map (fun it => (order_id, it.product_id, it.quantity, it.unit_price)) := by
  intro nid items
  induction items generalizing nid with
  | nil => rfl
  | cons it rest ih => simp [mkOrderItems, ih]

/-- C1: for a user with a non-empty cart, when every cart line passes the
stock check against the locked product row and the supplied address
references (if any) belong to the user, checkout succeeds with a pending
order whose number is derived from its identifier, one order line per cart
line copying product reference, quantity and snapshotted unit price, total
equal to the sum of quantity * unit_price over the cart lines, each
referenced product's stock decremented by the quantity the cart lines
request of it, and the user's cart row and its lines deleted. -/
theorem C1_checkout_success (db : DB) (user_id : Nat) (sid bid : Option Nat)
    (cart : Cart)
    (hc : CartService.get_user_cart user_id db = some cart)
    (hne : cartItemsOf db cart.id ≠ [])
    (hstock : (cartItemsOf db cart.id).all (OrderService.stockOk db) = true)
    (hship : OrderService.addressOk db user_id sid = true)
    (hbill : OrderService.addressOk db user_id bid = true) :
    ∃ o ois,
      OrderService.checkout user_id sid bid db =
        (.ok o,
         { products := db.products.map (fun p => { p with stock := p.stock - cartQty (cartItemsOf db cart.id) p.id }),
           carts := db.carts.filter (fun c => !(c.id == cart.id)),
           cartItems := db.cartItems.filter (fun i => !(i.cart_id == cart.id)),
           orders := db.orders ++ [o],
           orderItems := db.orderItems ++ ois,
           addresses := db.addresses,
           nextId := db.nextId + 1 + (cartItemsOf db cart.id).length }) ∧
      o.status = .pending ∧
      o.number = orderNumber o.id ∧
      o.user_id = user_id ∧
      o.shipping_address_id = sid ∧
      o.billing_address_id = bid ∧
      o.total_amount = cartTotal (cartItemsOf db cart.id) ∧
      ois.map (fun x => (x.order_id, x.product_id, x.quantity, x.unit_price))
        = (cartItemsOf db cart.id).map
            (fun it => (o.id, it.product_id, it.quantity, it.unit_price)) := by
  refine ⟨_, _,
    checkout_ok_eq db user_id sid bid cart hc hne hstock hship hbill,
    rfl, rfl, rfl, rfl, rfl, rfl, ?_⟩
  exact mkOrderItems_proj db.nextId (db.nextId + 1) (cartItemsOf db cart.id)

/-- Witness for C1 on the specification scenario fixture (stock 3,
quantity 2, unit price 10). -/
theorem C1_checkout_success_witness :
    ∃ o ois,
      OrderService.checkout 1 none none dbW =
        (.ok o,
         { products := dbW.products.map (fun p => { p with stock := p.stock - cartQty (cartItemsOf dbW cartW.id) p.id }),
           carts := dbW.carts.filter (fun c => !(c.id == cartW.id)),
           cartItems := dbW.cartItems.filter (fun i => !(i.cart_id == cartW.id)),
           orders := dbW.orders ++ [o],
           orderItems := dbW.orderItems ++ ois,
           addresses := dbW.addresses,
           nextId := dbW.nextId + 1 + (cartItemsOf dbW cartW.id).length }) ∧
      o.status = .pending ∧
      o.number = orderNumber o.id ∧
      o.user_id = 1 ∧
      o.shipping_address_id = none ∧
      o.billing_address_id = none ∧
      o.total_amount = cartTotal (cartItemsOf dbW cartW.id) ∧
      ois.map (fun x => (x.order_id, x.product_id, x.quantity, x.unit_price))
        = (cartItemsOf dbW cartW.id).map
            (fun it => (o.id, it.product_id, it.quantity, it.unit_price)) :=
  C1_checkout_success dbW 1 none none cartW rfl (by decide) (by decide) rfl rfl

/-- Direct evaluation of the specification scenario: one cart line,
stock 3, quantity 2, unit price 10.0; checkout returns a pending order
with total 20.0 and one line of quantity 2; the stock becomes 1 and the
cart is gone. -/
theorem checkout_scenario_eval :
    OrderService.checkout 1 none none dbW =
      (.ok { id := 200, user_id := 1, number := orderNumber 200,
             status := .pending, shipping_address_id := none,
             billing_address_id := none, total_amount := 20 },
       { products := [{ prodW with stock := 1 }],
         carts := [], cartItems := [],
         orders := [{ id := 200, user_id := 1, number := orderNumber 200,
                      status := .pending, shipping_address_id := none,
                      billing_address_id := none, total_amount := 20 }],
         orderItems := [{ id := 201, order_id := 200, product_id := 5,
                          quantity := 2, unit_price := 10 }],
         addresses := [], nextId := 202 }) := by
  have h := checkout_ok_eq dbW 1 none none cartW rfl (by decide) (by decide) rfl rfl
  rw [h]
  norm_num [dbW, cartW, itemW, prodW, cartItemsOf, cartTotal, cartQty_cons,
    cartQty_nil, mkOrderItems]

theorem checkout_no_cart (db : DB) (u : Nat) (s b : Option Nat)
    (hc : CartService.get_user_cart u db = none) :
    OrderService.checkout u s b db = (.error .emptyCart, db) := by
  unfold OrderService.checkout
  rw [hc]

theorem checkout_empty_items (db : DB) (u : Nat) (s b : Option Nat) (cart : Cart)
    (hc : CartService.get_user_cart u db = some cart)
    (he : cartItemsOf db cart.id = []) :
    OrderService.checkout u s b db = (.error .emptyCart, db) := by
  unfold OrderService.checkout
  rw [hc]
  simp [he]

theorem checkout_stock_fail (db : DB) (u : Nat) (s b : Option Nat) (cart : Cart)
    (hc : CartService.get_user_cart u db = some cart)
    (hne : cartItemsOf db cart.id ≠ [])
    (hf : (cartItemsOf db cart.id).all (OrderService.stockOk db) = false) :
    OrderService.checkout u s b db = (.error .insufficientStock, db) := by
  have hemp : (cartItemsOf db cart.id).isEmpty = false := by
    simp [List.isEmpty_iff, hne]
  unfold OrderService.checkout
  rw [hc]
  simp [hemp, hf]

theorem checkout_ship_fail (db : DB) (u : Nat) (s b : Option Nat) (cart : Cart)
    (hc : CartService.get_user_cart u db = some cart)
    (hne : cartItemsOf db cart.id ≠ [])
    (hall : (cartItemsOf db cart.id).all (OrderService.stockOk db) = true)
    (hsf : OrderService.addressOk db u s = false) :
    OrderService.checkout u s b db = (.error .addressNotFound, db) := by
  have hemp : (cartItemsOf db cart.id).isEmpty = false := by
    simp [List.isEmpty_iff, hne]
  unfold OrderService.checkout
  rw [hc]
  simp [hemp, hall, hsf]

theorem checkout_bill_fail (db : DB) (u : Nat) (s b : Option Nat) (cart : Cart)
    (hc : CartService.get_user_cart u db = some cart)
    (hne : cartItemsOf db cart.id ≠ [])
    (hall : (cartItemsOf db cart.id).all (OrderService.stockOk db) = true)
    (hs1 : OrderService.addressOk db u s = true)
    (hbf : OrderService.addressOk db u b = false) :
    OrderService.checkout u s b db = (.error .addressNotFound, db) := by
  have hemp : (cartItemsOf db cart.id).isEmpty = false := by
    simp [List.isEmpty_iff, hne]
  unfold OrderService.checkout
  rw [hc]
  simp [hemp, hall, hs1, hbf]

theorem cartQty_le_stock (db : DB) (items : List CartItem) (p : Product)
    (hmem : p ∈ db.products) (hnd : productIdsNodup db) (hnn : 0 ≤ p.stock)
    (hnodup : (items.map (fun i => i.product_id)).Nodup)
    (hall : ∀ it ∈ items, OrderService.stockOk db it = true) :
    cartQty items p.id ≤ p.stock := by
  induction items with
  | nil => simpa [cartQty_nil] using hnn
  | cons it rest ih =>
    rcases List.nodup_cons.mp hnodup with ⟨hni, hndr⟩
    rw [cartQty_cons]
    by_cases h : it.product_id = p.id
    · have hz : cartQty rest p.id = 0 := by
        apply cartQty_eq_zero
        intro x hx he
        apply hni
        have hm : x.product_id ∈ rest.map (fun i => i.product_id) :=
          List.mem_map_of_mem (fun i => i.product_id) hx
        rwa [he, ← h] at hm
      have hs := hall it (List.mem_cons_self it rest)
      unfold OrderService.stockOk at hs
      rw [h, findProduct_self db p hmem hnd] at hs
      simp only [decide_eq_true_eq] at hs
      rw [if_pos h, hz, add_zero]
      exact hs
    · rw [if_neg h, zero_add]
      exact ih hndr (fun x hx => hall x (List.mem_cons_of_mem it hx))

theorem cart_lines_nodup (db : DB) (cid : Nat) (h3 : cartLinesSeparated db) :
    ((cartItemsOf db cid).map (fun i => i.product_id)).Nodup := by
  rw [List.Nodup, List.pairwise_map]
  have hp : (cartItemsOf db cid).Pairwise
      (fun a b => a.cart_id = b.cart_id → a.product_id ≠ b.product_id) :=
    h3.filter _
  apply List.Pairwise.imp_of_mem ?_ hp
  intro a b ha hb hr
  have ha2 := (List.mem_filter.mp ha).2
  have hb2 := (List.mem_filter.mp hb).2
  simp only [beq_iff_eq] at ha2 hb2
  exact hr (ha2.trans hb2.symm)

theorem checkout_preserves (db : DB) (u : Nat) (s b : Option Nat)
    (h1 : stocksNonneg db) (h2 : productIdsNodup db) (h3 : cartLinesSeparated db) :
    stocksNonneg (OrderService.checkout u s b db).2 ∧
    productIdsNodup (OrderService.checkout u s b db).2 ∧
    cartLinesSeparated (OrderService.checkout u s b db).2 := by
  cases hc : CartService.get_user_cart u db with
  | none =>
    rw [checkout_no_cart db u s b hc]
    exact ⟨h1, h2, h3⟩
  | some cart =>
    by_cases hne : cartItemsOf db cart.id = []
    · rw [checkout_empty_items db u s b cart hc hne]
      exact ⟨h1, h2, h3⟩
    · cases hall : (cartItemsOf db cart.id).all (OrderService.stockOk db) with
      | false =>
        rw [checkout_stock_fail db u s b cart hc hne hall]
        exact ⟨h1, h2, h3⟩
      | true =>
        cases hs1 : OrderService.addressOk db u s with
        | false =>
          rw [checkout_ship_fail db u s b cart hc hne hall hs1]
          exact ⟨h1, h2, h3⟩
        | true =>
          cases hs2 : OrderService.addressOk db u b with
          | false =>
            rw [checkout_bill_fail db u s b cart hc hne hall hs1 hs2]
            exact ⟨h1, h2, h3⟩
          | true =>
            rw [checkout_ok_eq db u s b cart hc hne hall hs1 hs2]
            refine ⟨?_, ?_, ?_⟩
            · intro p hp
              rcases List.mem_map.mp hp with ⟨q, hq, rfl⟩
              have hle : cartQty (cartItemsOf db cart.id) q.id ≤ q.stock :=
                cartQty_le_stock db (cartItemsOf db cart.id) q hq h2 (h1 q hq)
                  (cart_lines_nodup db cart.id h3)
                  (fun x hx => (List.all_eq_true.mp hall) x hx)
              simpa using hle
            · have : (List.map (fun p => { p with stock := p.stock - cartQty (cartItemsOf db cart.id) p.id }) db.products).map (fun p => p.id) = db.products.map (fun p => p.id) := by
                rw [List.map_map]
                rfl
              unfold productIdsNodup
              rw [this]
              exact h2
            · exact h3.filter _

theorem runCheckouts_preserves (reqs : List (Nat × Option Nat × Option Nat)) :
    ∀ db : DB, stocksNonneg db → productIdsNodup db → cartLinesSeparated db →
    stocksNonneg (runCheckouts reqs db) ∧ productIdsNodup (runCheckouts reqs db) ∧
    cartLinesSeparated (runCheckouts reqs db) := by
  induction reqs with
  | nil => exact fun db h1 h2 h3 => ⟨h1, h2, h3⟩
  | cons r rest ih =>
    intro db h1 h2 h3
    have hr := checkout_preserves db r.1 r.2.1 r.2.2 h1 h2 h3
    exact ih _ hr.1 hr.2.1 hr.2.2

/-- C4: product stock never goes negative: starting from any database
whose stocks are non-negative, whose product primary keys are unique, and
whose cart lines satisfy the (cart_id, product_id) uniqueness constraint,
every state reachable by any sequence of checkouts still has every
product's stock non-negative. -/
theorem C4_stock_never_negative (reqs : List (Nat × Option Nat × Option Nat))
    (db : DB) (h1 : stocksNonneg db) (h2 : productIdsNodup db)
    (h3 : cartLinesSeparated db) :
    stocksNonneg (runCheckouts reqs db) :=
  (runCheckouts_preserves reqs db h1 h2 h3).1

/-- Witness for C4: two checkouts of user 1 against the scenario fixture
(the second raises EmptyCart, the cart having been consumed) keep all
stocks non-negative. -/
theorem C4_stock_never_negative_witness :
    stocksNonneg (runCheckouts [(1, none, none), (1, none, none)] dbW) :=
  C4_stock_never_negative [(1, none, none), (1, none, none)] dbW
    (by unfold stocksNonneg; decide) (by unfold productIdsNodup; decide)
    (by unfold cartLinesSeparated; decide)

/-- C5: for a user with a non-empty cart (whose lines reference existing
products, per the foreign-key constraint), checkout raises
InsufficientStock exactly when some cart line's quantity exceeds the stock
of the corresponding locked product row — a quantity equal to the stock
passes — and when it is raised the database is unchanged, so no partial
order is ever created. -/
theorem C5_insufficient_stock_iff (db : DB) (user_id : Nat)
    (sid bid : Option Nat) (cart : Cart)
    (hc : CartService.get_user_cart user_id db = some cart)
    (hne : cartItemsOf db cart.id ≠ [])
    (hri : ∀ it ∈ cartItemsOf db cart.id, (findProduct db it.product_id).isSome = true) :
    ((OrderService.checkout user_id sid bid db).1 = .error .insufficientStock ↔
      ∃ it ∈ cartItemsOf db cart.id,
        ∃ p, findProduct db it.product_id = some p ∧ p.stock < it.quantity) ∧
    ((OrderService.checkout user_id sid bid db).1 = .error .insufficientStock →
      (OrderService.checkout user_id sid bid db).2 = db) := by
  constructor
  · constructor
    · intro herr
      cases hall : (cartItemsOf db cart.id).all (OrderService.stockOk db) with
      | true =>
        exfalso
        cases hs1 : OrderService.addressOk db user_id sid with
        | false =>
          rw [checkout_ship_fail db user_id sid bid cart hc hne hall hs1] at herr
          exact absurd herr (by simp)
        | true =>
          cases hs2 : OrderService.addressOk db user_id bid with
          | false =>
            rw [checkout_bill_fail db user_id sid bid cart hc hne hall hs1 hs2] at herr
            exact absurd herr (by simp)
          | true =>
            rw [checkout_ok_eq db user_id sid bid cart hc hne hall hs1 hs2] at herr
            exact absurd herr (by simp)
      | false =>
        obtain ⟨it, hit, hfalse⟩ := List.all_eq_false.mp hall
        obtain ⟨p, hp⟩ := Option.isSome_iff_exists.mp (hri it hit)
        refine ⟨it, hit, p, hp, ?_⟩
        unfold OrderService.stockOk at hfalse
        rw [hp] at hfalse
        simpa using hfalse
    · rintro ⟨it, hit, p, hp, hlt⟩
      have hfail : (cartItemsOf db cart.id).all (OrderService.stockOk db) = false := by
        apply List.all_eq_false.mpr
        refine ⟨it, hit, ?_⟩
        unfold OrderService.stockOk
        rw [hp]
        simpa using not_le.mpr hlt
      rw [checkout_stock_fail db user_id sid bid cart hc hne hfail]
  · intro herr
    rw [checkout_error_result db user_id sid bid _ herr]

/-- Witness for C5 on the fixture whose single cart line requests 3 of a
product with stock 2. -/
theorem C5_insufficient_stock_iff_witness :
    ((OrderService.checkout 1 none none dbIS).1 = .error .insufficientStock ↔
      ∃ it ∈ cartItemsOf dbIS cartW.id,
        ∃ p, findProduct dbIS it.product_id = some p ∧ p.stock < it.quantity) ∧
    ((OrderService.checkout 1 none none dbIS).1 = .error .insufficientStock →
      (OrderService.checkout 1 none none dbIS).2 = dbIS) :=
  C5_insufficient_stock_iff dbIS 1 none none cartW rfl (by decide) (by decide)

theorem find_id_user (l : List Order) (oid uid : Nat)
    (hnd : (l.map (fun o => o.id)).Nodup) :
    (∀ o, l.find? (fun x => x.id == oid) = some o →
      (o.user_id = uid →
        l.find? (fun x => x.id == oid && x.user_id == uid) = some o) ∧
      (o.user_id ≠ uid →
        l.find? (fun x => x.id == oid && x.user_id == uid) = none)) ∧
    (l.find? (fun x => x.id == oid) = none →
      l.find? (fun x => x.id == oid && x.user_id == uid) = none) := by
  induction l with
  | nil => simp
  | cons a t ih =>
    rcases List.nodup_cons.mp hnd with ⟨hni, hndt⟩
    by_cases ha : a.id = oid
    · constructor
      · intro o ho
        rw [List.find?_cons_of_pos t (by simp [ha])] at ho
        cases ho
        constructor
        · intro hu
          exact List.find?_cons_of_pos t (by simp [ha, hu])
        · intro hu
          rw [List.find?_cons_of_neg t (by simp [hu])]
          apply List.find?_eq_none.mpr
          intro x hx
          simp only [Bool.and_eq_true, beq_iff_eq, not_and]
          intro hxid
          exfalso
          apply hni
          have hm : x.id ∈ t.map (fun o => o.id) := List.mem_map_of_mem (fun o => o.id) hx
          rwa [hxid, ← ha] at hm
      · intro hnone
        rw [List.find?_cons_of_pos t (by simp [ha])] at hnone
        cases hnone
    · have hid : ¬(a.id == oid) = true := by simp [ha]
      have hcomb : ¬(a.id == oid && a.user_id == uid) = true := by simp [ha]
      rw [List.find?_cons_of_neg t hid, List.find?_cons_of_neg t hcomb]
      exact ih hndt

/-- C9: get_user_order returns the order exactly when an order with the
given id exists and is owned by the caller; when the order is absent and
when it belongs to a different user it signals the same error,
OrderNotFound, so the two cases are indistinguishable to the caller. -/
theorem C9_get_user_order_scoped (db : DB) (user_id order_id : Nat)
    (hnd : (db.orders.map (fun o => o.id)).Nodup) :
    (∀ o, db.orders.find? (fun x => x.id == order_id) = some o →
      (o.user_id = user_id →
        OrderService.get_user_order user_id order_id db = .ok o) ∧
      (o.user_id ≠ user_id →
        OrderService.get_user_order user_id order_id db = .error .orderNotFound)) ∧
    (db.orders.find? (fun x => x.id == order_id) = none →
      OrderService.get_user_order user_id order_id db = .error .orderNotFound) := by
  have h := find_id_user db.orders order_id user_id hnd
  constructor
  · intro o ho
    constructor
    · intro hu
      unfold OrderService.get_user_order
      rw [(h.1 o ho).1 hu]
    · intro hu
      unfold OrderService.get_user_order
      rw [(h.1 o ho).2 hu]
  · intro hn
    unfold OrderService.get_user_order
    rw [h.2 hn]

/-- Witness for C9: order 7 belongs to user 1, so user 1 reads it, user 2
gets OrderNotFound, and a nonexistent id 99 also gets OrderNotFound. -/
theorem C9_get_user_order_scoped_witness :
    OrderService.get_user_order 1 7 dbORD = .ok orderW ∧
    OrderService.get_user_order 2 7 dbORD = .error .orderNotFound ∧
    OrderService.get_user_order 1 99 dbORD = .error .orderNotFound := by
  refine ⟨?_, ?_, ?_⟩
  · exact ((C9_get_user_order_scoped dbORD 1 7 (by decide)).1 orderW rfl).1 rfl
  · exact ((C9_get_user_order_scoped dbORD 2 7 (by decide)).1 orderW rfl).2 (by decide)
  · exact (C9_get_user_order_scoped dbORD 1 99 (by decide)).2 rfl

/-- C10: for a user with no cart, update_item first creates an empty cart
row for that user (get_or_create flushes it), then fails with its
not-found error: the failed call is not atomic, leaving behind exactly one
new cart row. -/
theorem C10_failed_update_creates_cart (db : DB) (user_id item_id : Nat)
    (q : Option Int)
    (hnone : CartService.get_user_cart user_id db = none)
    (hfresh : ∀ i ∈ db.cartItems, i.cart_id ≠ db.nextId) :
    CartService.update_item_to_user_cart user_id item_id q db =
      (.error .cartNotFound,
       { db with carts := db.carts ++ [{ id := db.nextId, user_id := user_id }],
                 nextId := db.nextId + 1 }) := by
  unfold CartService.update_item_to_user_cart CartService.get_or_create_user_cart
  rw [hnone]
  simp only []
  cases hfi : findCartItem
      { db with carts := db.carts ++ [{ id := db.nextId, user_id := user_id }],
                nextId := db.nextId + 1 } item_id with
  | none => rfl
  | some item =>
    have hmem : item ∈ db.cartItems := by
      unfold findCartItem at hfi
      exact List.mem_of_find?_eq_some hfi
    have hne : ¬(item.cart_id == db.nextId) = true := by
      simp [hfresh item hmem]
    simp [hne]

/-- Witness for C10: user 3 has no cart in the scenario fixture; updating
any item id fails with the not-found error, yet a fresh cart row 200 for
user 3 now exists. -/
theorem C10_failed_update_creates_cart_witness :
    CartService.update_item_to_user_cart 3 100 (some 1) dbW =
      (.error .cartNotFound,
       { dbW with carts := dbW.carts ++ [{ id := 200, user_id := 3 }],
                  nextId := 201 }) :=
  C10_failed_update_creates_cart dbW 3 100 (some 1) rfl (by decide)

/-- C8 (actual code behavior at the failing inputs): with no cart at all,
remove_item returns successfully instead of signalling CartItemNotFound;
update_item on an absent line signals CartNotFound — not the
CartItemNotFound the claim (and the service's own test) names; remove_item
with a cart but an absent line does signal CartItemNotFound; in every case
no cart line is modified or deleted. -/
theorem C8_missing_line_errors :
    CartService.remove_item_from_user_cart 3 100 dbW = (.ok (), dbW) ∧
    (CartService.update_item_to_user_cart 1 999 (some 1) dbW).1 =
      .error .cartNotFound ∧
    (CartService.update_item_to_user_cart 1 999 (some 1) dbW).2 = dbW ∧
    (CartService.remove_item_from_user_cart 1 999 dbW).1 =
      .error .cartItemNotFound ∧
    (CartService.remove_item_from_user_cart 1 999 dbW).2 = dbW :=
  ⟨rfl, rfl, rfl, rfl, rfl⟩

/-- C6: add_item merges rather than duplicates lines.  With the product
present: if the cart already holds a line for it with quantity c, the call
sets that line's quantity to c + q keeping its original unit_price;
otherwise it appends exactly one new line with quantity q and unit_price
snapshotted from the current product price; it raises InsufficientStock
exactly when c + q exceeds the current stock, leaving the cart lines
unchanged; and the at-most-one-line-per-(cart, product) invariant is
preserved. -/
theorem C6_add_item_merges (db : DB) (user_id product_id : Nat) (quantity : Int)
    (cart : Cart) (db1 : DB) (product : Product)
    (hgc : CartService.get_or_create_user_cart user_id db = (cart, db1))
    (hp : findProduct db product_id = some product) :
    (∀ i, db1.cartItems.find?
        (fun x => x.cart_id == cart.id && x.product_id == product.id) = some i →
      (product.stock < i.quantity + quantity →
        CartService.add_item_to_user_cart user_id product_id quantity db =
          (.error .insufficientStock, db1) ∧ db1.cartItems = db.cartItems) ∧
      (¬ product.stock < i.quantity + quantity →
        CartService.add_item_to_user_cart user_id product_id quantity db =
          (.ok cart,
           { db1 with cartItems := db1.cartItems.map (fun j => if j.id == i.id then { j with quantity := i.quantity + quantity } else j) }))) ∧
    (db1.cartItems.find?
        (fun x => x.cart_id == cart.id && x.product_id == product.id) = none →
      (product.stock < quantity →
        CartService.add_item_to_user_cart user_id product_id quantity db =
          (.error .insufficientStock, db1) ∧ db1.cartItems = db.cartItems) ∧
      (¬ product.stock < quantity →
        CartService.add_item_to_user_cart user_id product_id quantity db =
          (.ok cart,
           { db1 with cartItems := db1.cartItems ++ [{ id := db1.nextId, cart_id := cart.id, product_id := product.id, quantity := quantity, unit_price := product.price }], nextId := db1.nextId + 1 }))) ∧
    (cartLinesSeparated db →
      cartLinesSeparated (CartService.add_item_to_user_cart user_id product_id quantity db).2) := by
  have hpt : db1.products = db.products := by
    have h := (get_or_create_tables user_id db).1
    rw [hgc] at h
    exact h
  have hct : db1.cartItems = db.cartItems := by
    have h := (get_or_create_tables user_id db).2.1
    rw [hgc] at h
    exact h
  have hfp : findProduct db1 product_id = some product := by
    unfold findProduct at hp ⊢
    rw [hpt]
    exact hp
  have hmain : ∀ r, CartService.add_item_to_user_cart user_id product_id quantity db = r →
      (match db1.cartItems.find?
          (fun x => x.cart_id == cart.id && x.product_id == product.id) with
       | some i =>
         if product.stock < i.quantity + quantity then
           r = (.error .insufficientStock, db1)
         else
           r = (.ok cart,
            { db1 with cartItems := db1.cartItems.map (fun j => if j.id == i.id then { j with quantity := i.quantity + quantity } else j) })
       | none =>
         if product.stock < quantity then
           r = (.error .insufficientStock, db1)
         else
           r = (.ok cart,
            { db1 with cartItems := db1.cartItems ++ [{ id := db1.nextId, cart_id := cart.id, product_id := product.id, quantity := quantity, unit_price := product.price }], nextId := db1.nextId + 1 })) := by
    intro r hr
    unfold CartService.add_item_to_user_cart at hr
    rw [hgc] at hr
    simp only [] at hr
    rw [hfp] at hr
    simp only [] at hr
    cases hfi : db1.cartItems.find?
        (fun x => x.cart_id == cart.id && x.product_id == product.id) with
    | some i =>
      rw [hfi] at hr
      simp only [] at hr
      simp only []
      by_cases hlt : product.stock < i.quantity + quantity
      · rw [if_pos hlt] at hr
        rw [if_pos hlt]
        exact hr.symm
      · rw [if_neg hlt] at hr
        rw [if_neg hlt]
        exact hr.symm
    | none =>
      rw [hfi] at hr
      simp only [] at hr
      simp only []
      by_cases hlt : product.stock < 0 + quantity
      · rw [if_pos hlt] at hr
        rw [if_pos (by rwa [zero_add] at hlt)]
        exact hr.symm
      · rw [if_neg hlt] at hr
        rw [if_neg (by rwa [zero_add] at hlt)]
        exact hr.symm
  have hspec := hmain _ rfl
  refine ⟨?_, ?_, ?_⟩
  · intro i hi
    rw [hi] at hspec
    simp only [] at hspec
    constructor
    · intro hlt
      rw [if_pos hlt] at hspec
      exact ⟨hspec, hct⟩
    · intro hlt
      rw [if_neg hlt] at hspec
      exact hspec
  · intro hnone
    rw [hnone] at hspec
    simp only [] at hspec
    constructor
    · intro hlt
      rw [if_pos hlt] at hspec
      exact ⟨hspec, hct⟩
    · intro hlt
      rw [if_neg hlt] at hspec
      exact hspec
  · intro hsep
    have hsep1 : db1.cartItems.Pairwise
        (fun a b => a.cart_id = b.cart_id → a.product_id ≠ b.product_id) := by
      rw [hct]
      exact hsep
    cases hfi : db1.cartItems.find?
        (fun x => x.cart_id == cart.id && x.product_id == product.id) with
    | some i =>
      rw [hfi] at hspec
      simp only [] at hspec
      by_cases hlt : product.stock < i.quantity + quantity
      · rw [if_pos hlt] at hspec
        rw [hspec]
        unfold cartLinesSeparated
        rw [hct]
        exact hsep
      · rw [if_neg hlt] at hspec
        rw [hspec]
        unfold cartLinesSeparated
        simp only []
        apply List.Pairwise.map
        · intro a b hab
          have ha : (if a.id == i.id then { a with quantity := i.quantity + quantity } else a).cart_id = a.cart_id := by
            split <;> rfl
          have hb : (if b.id == i.id then { b with quantity := i.quantity + quantity } else b).cart_id = b.cart_id := by
            split <;> rfl
          have ha2 : (if a.id == i.id then { a with quantity := i.quantity + quantity } else a).product_id = a.product_id := by
            split <;> rfl
          have hb2 : (if b.id == i.id then { b with quantity := i.quantity + quantity } else b).product_id = b.product_id := by
            split <;> rfl
          rw [ha, hb, ha2, hb2]
          exact hab
        · exact hsep1
    | none =>
      rw [hfi] at hspec
      simp only [] at hspec
      by_cases hlt : product.stock < quantity
      · rw [if_pos hlt] at hspec
        rw [hspec]
        unfold cartLinesSeparated
        rw [hct]
        exact hsep
      · rw [if_neg hlt] at hspec
        rw [hspec]
        unfold cartLinesSeparated
        simp only []
        rw [List.pairwise_append]
        refine ⟨hsep1, List.pairwise_singleton _ _, ?_⟩
        intro a ha x hx hcid
        have hxa : x = { id := db1.nextId, cart_id := cart.id, product_id := product.id, quantity := quantity, unit_price := product.price } := by
          simpa using hx
        have hnp := List.find?_eq_none.mp hfi a ha
        simp only [Bool.and_eq_true, beq_iff_eq, not_and] at hnp
        subst hxa
        intro hpid
        exact hnp (by simpa using hcid) (by simpa using hpid)

/-- Witness for C6: adding one more unit of product 5 to user 1's cart in
the scenario fixture merges into the existing line (quantity 2 becomes 3,
unit price kept), and the one-line-per-(cart, product) invariant still
holds. -/
theorem C6_add_item_merges_witness :
    CartService.add_item_to_user_cart 1 5 1 dbW =
      (.ok cartW,
       { dbW with cartItems := dbW.cartItems.map (fun j => if j.id == 100 then { j with quantity := 3 } else j) }) ∧
    cartLinesSeparated (CartService.add_item_to_user_cart 1 5 1 dbW).2 := by
  have h := C6_add_item_merges dbW 1 5 1 cartW dbW prodW rfl rfl
  constructor
  · exact (h.1 itemW rfl).2 (by decide)
  · exact h.2.2 (by unfold cartLinesSeparated; decide)

theorem mkOrderItems_prices (order_id : Nat) :
    ∀ (nid : Nat) (items : List CartItem),
    (mkOrderItems order_id nid items).map (fun x => x.unit_price)
      = items.map (fun it => it.unit_price) := by
  intro nid items
  induction items generalizing nid with
  | nil => rfl
  | cons it rest ih => simp [mkOrderItems, ih]

/-- C7: price snapshots are immutable.  Updating a product's catalog price
touches no cart line and no order line; update_item with a positive
quantity rewrites only the line's quantity field (identifier, cart,
product and unit_price of every line are untouched, so unit_price is never
re-snapshotted); and the order lines created by checkout copy the cart
lines' snapshotted unit prices, not the current product prices. -/
theorem C7_price_snapshot (db : DB) :
    (∀ pid pr, (updateProductPrice pid pr db).cartItems = db.cartItems ∧
      (updateProductPrice pid pr db).orderItems = db.orderItems) ∧
    (∀ (user_id item_id : Nat) (q : Int) (cart : Cart) (db1 : DB)
        (item : CartItem) (product : Product),
      CartService.get_or_create_user_cart user_id db = (cart, db1) →
      findCartItem db1 item_id = some item →
      item.cart_id = cart.id →
      0 < q →
      findProduct db1 item.product_id = some product →
      ¬ product.stock < q →
      CartService.update_item_to_user_cart user_id item_id (some q) db =
        (.ok cart,
         { db1 with cartItems := db1.cartItems.map (fun i => if i.id == item_id then { i with quantity := q } else i) }) ∧
      ((CartService.update_item_to_user_cart user_id item_id (some q) db).2.cartItems.map (fun i => (i.id, i.cart_id, i.product_id, i.unit_price))
        = db1.cartItems.map (fun i => (i.id, i.cart_id, i.product_id, i.unit_price)))) ∧
    (∀ (user_id : Nat) (sid bid : Option Nat) (cart : Cart),
      CartService.get_user_cart user_id db = some cart →
      cartItemsOf db cart.id ≠ [] →
      (cartItemsOf db cart.id).all (OrderService.stockOk db) = true →
      OrderService.addressOk db user_id sid = true →
      OrderService.addressOk db user_id bid = true →
      ∃ ois, (OrderService.checkout user_id sid bid db).2.orderItems
          = db.orderItems ++ ois ∧
        ois.map (fun x => x.unit_price)
          = (cartItemsOf db cart.id).map (fun it => it.unit_price)) := by
  refine ⟨fun pid pr => ⟨rfl, rfl⟩, ?_, ?_⟩
  · intro user_id item_id q cart db1 item product hgc hfind hown hq hprod hstock
    have heq : CartService.update_item_to_user_cart user_id item_id (some q) db =
        (.ok cart,
         { db1 with cartItems := db1.cartItems.map (fun i => if i.id == item_id then { i with quantity := q } else i) }) := by
      unfold CartService.update_item_to_user_cart
      rw [hgc]
      simp only []
      rw [hfind]
      simp only []
      have hcid : (!(item.cart_id == cart.id)) = false := by simp [hown]
      rw [hcid]
      simp only [Bool.false_eq_true, if_false]
      rw [if_neg (by omega : ¬ q ≤ 0)]
      rw [hprod]
      simp only []
      rw [if_neg hstock]
    refine ⟨heq, ?_⟩
    rw [heq]
    simp only []
    rw [List.map_map]
    apply List.map_congr_left
    intro i _
    by_cases hid : i.id = item_id
    · simp [Function.comp, hid]
    · simp [Function.comp, hid]
  · intro user_id sid bid cart hc hne hstock hship hbill
    refine ⟨mkOrderItems db.nextId (db.nextId + 1) (cartItemsOf db cart.id), ?_, ?_⟩
    · rw [checkout_ok_eq db user_id sid bid cart hc hne hstock hship hbill]
    · exact mkOrderItems_prices db.nextId (db.nextId + 1) (cartItemsOf db cart.id)

/-- Witness for C7: on the scenario fixture, repricing product 5 leaves the
cart line's unit price 10 in place, updating the line quantity to 3 keeps
every field but quantity, and the order line produced by checkout carries
unit price 10, the snapshot. -/
theorem C7_price_snapshot_witness :
    (updateProductPrice 5 99 dbW).cartItems = dbW.cartItems ∧
    CartService.update_item_to_user_cart 1 100 (some 3) dbW =
      (.ok cartW,
       { dbW with cartItems := dbW.cartItems.map (fun i => if i.id == 100 then { i with quantity := 3 } else i) }) ∧
    (∃ ois, (OrderService.checkout 1 none none dbW).2.orderItems
        = dbW.orderItems ++ ois ∧
      ois.map (fun x => x.unit_price)
        = (cartItemsOf dbW cartW.id).map (fun it => it.unit_price)) := by
  refine ⟨((C7_price_snapshot dbW).1 5 99).1, ?_, ?_⟩
  · exact ((C7_price_snapshot dbW).2.1 1 100 3 cartW dbW itemW prodW rfl rfl rfl
      (by decide) rfl (by decide)).1
  · exact (C7_price_snapshot dbW).2.2 1 none none cartW rfl (by decide) (by decide)
      rfl rfl
